import Mathlib

/-!
Verification development for the repository's executable logic:

* `BundleSizeChecker` embeds `packages-internal/bundle-size-checker/create.js`
  (the size-snapshot CLI): the Piscina worker-pool configuration, the
  entrypoint deduplication in `getWebpackSizes`, and the effect trace of
  `run` (directory cleaning, worker dispatch, JSON snapshot write).
* `BuildScript` embeds the package build script (the second module of
  `create.js`): bundle-name validation, its `TypeError`, and the ordering of
  its side effects.
* `Snackbar` and `Ripple` model the timer state machines of the Joy
  Snackbar and the Ripple component, whose behavior is pinned by
  `Snackbar.test.tsx` and `Ripple.test.js`.

Effectful JavaScript is embedded as pure functions that return an explicit
list of effects next to their result; timers become explicit state with
discrete time-advance events.
-/

namespace BundleSizeChecker

/-- Webpack environment flags passed from the CLI to each worker
(`{ analyze, accurateBundles }` in `create.js`). -/
structure WebpackEnv where
  analyze : Bool
  accurateBundles : Bool
deriving DecidableEq, Repr

/-- Argument record handed to `worker.run` for one entrypoint:
`{ entry, webpackEnvironment, index, total }`. -/
structure WorkerArgs where
  entry : String
  webpackEnvironment : WebpackEnv
  index : Nat
  total : Nat
deriving DecidableEq, Repr

/-- `const MAX_CONCURRENCY = Math.min(8, os.cpus().length)` with the machine's
CPU count as an explicit parameter. -/
def MAX_CONCURRENCY (cpuCount : Nat) : Nat := min 8 cpuCount

/-- Configuration of a Piscina worker-thread pool: the worker script and the
`maxThreads` bound. -/
structure PiscinaPool where
  filename : String
  maxThreads : Nat
deriving DecidableEq, Repr

/-- The pool constructed at the top of `getWebpackSizes`:
`new Piscina({ filename: new URL('./worker.js', import.meta.url).href,
maxThreads: MAX_CONCURRENCY })`.  The resolved URL is kept as the relative
script name. -/
def getWebpackSizesPool (cpuCount : Nat) : PiscinaPool :=
  { filename := "./worker.js", maxThreads := MAX_CONCURRENCY cpuCount }

/-- Order-preserving deduplication, the semantics of `new Set(entries)`
iterated in insertion order: the first occurrence of each element is kept
(later occurrences of the head are filtered out of the deduplicated tail). -/
def jsSetDedup {α : Type} [DecidableEq α] : List α → List α
  | [] => []
  | e :: rest => e :: (jsSetDedup rest).filter (fun x => x ≠ e)

/-- The error message thrown when `loadConfig` yields no usable entrypoint
list. -/
def configErrorMsg : String :=
  "No valid configuration found. Create a bundle-size-checker.config.js or bundle-size-checker.config.mjs file with entrypoints array."

/-- Observable side effects of the size-snapshot CLI, in program order. -/
inductive Effect
  | emptyDir (path : String)
  | workerRun (args : WorkerArgs)
  | mkdirp (path : String)
  | writeJSON (path : String) (value : List (String × Nat))
  | consoleLog (msg : String)
deriving DecidableEq, Repr

/-- `getWebpackSizes(webpackEnvironment)`.  The loaded configuration is an
input: `none` stands for the guarded invalid shapes (`!config`,
`!config.entrypoints`, `!Array.isArray(config.entrypoints)`); a worker's
size computation is the function `worker`.  Returns the effect trace and
either the thrown error message or the flattened size arrays. -/
def getWebpackSizes (rootDir : String) (worker : WorkerArgs → List (String × Nat))
    (webpackEnvironment : WebpackEnv) (config : Option (List String)) :
    List Effect × Except String (List (String × Nat)) :=
  let buildDir := rootDir ++ "/build"
  match config with
  | none => ([Effect.emptyDir buildDir], Except.error configErrorMsg)
  | some entries =>
    if entries.length = 0 then ([Effect.emptyDir buildDir], Except.error configErrorMsg)
    else
      let uniqueEntries := jsSetDedup entries
      let runs := uniqueEntries.mapIdx fun index entry =>
        WorkerArgs.mk entry webpackEnvironment index uniqueEntries.length
      (Effect.emptyDir buildDir :: runs.map Effect.workerRun,
        Except.ok ((runs.map worker).flatten))

/-- `Object.fromEntries`: keys in first-insertion order, each bound to the
value of its last occurrence. -/
def jsFromEntries (l : List (String × Nat)) : List (String × Nat) :=
  (jsSetDedup (l.map Prod.fst)).map fun k =>
    (k, ((l.reverse.find? fun p => p.fst = k).map Prod.snd).getD 0)

/-- Node's `path.resolve(rootDir, p)` restricted to already-normalized paths:
an absolute path is returned as is, a relative one is joined to `rootDir`. -/
def pathResolve (rootDir p : String) : String :=
  if p.startsWith "/" then p else rootDir ++ "/" ++ p

/-- Splitting a character list at `'/'` separators (the semantics of
`splitOn "/"`, written structurally). -/
def splitSlash : List Char → List (List Char)
  | [] => [[]]
  | c :: cs =>
    let rest := splitSlash cs
    if c = '/' then [] :: rest
    else
      match rest with
      | [] => [[c]]
      | h :: t => (c :: h) :: t

/-- Node's `path.dirname` on normalized paths. -/
def dirname (p : String) : String :=
  let parts := (splitSlash p.data).map String.mk
  if parts.length ≤ 1 then "."
  else if parts.dropLast = [""] then "/"
  else String.intercalate "/" parts.dropLast

/-- CLI arguments of the snapshot command (`analyze`, `accurateBundles`,
`output`). -/
structure Argv where
  analyze : Bool
  accurateBundles : Bool
  output : Option String
deriving DecidableEq, Repr

/-- `output ? path.resolve(output) : path.join(rootDir, 'size-snapshot.json')`. -/
def snapshotDestPath (rootDir : String) (output : Option String) : String :=
  match output with
  | some o => pathResolve rootDir o
  | none => rootDir ++ "/size-snapshot.json"

/-- The command handler `run(argv)`: computes the destination path, collects
the webpack sizes, turns them into an object, ensures the output directory
exists, writes the JSON snapshot and logs.  A thrown error aborts the
remaining effects. -/
def run (rootDir : String) (worker : WorkerArgs → List (String × Nat))
    (config : Option (List String)) (argv : Argv) : List Effect × Option String :=
  let destPath := snapshotDestPath rootDir argv.output
  let sizes := getWebpackSizes rootDir worker
    { analyze := argv.analyze, accurateBundles := argv.accurateBundles } config
  match sizes.2 with
  | Except.error msg => (sizes.1, some msg)
  | Except.ok sizeArrays =>
    let bundleSizes := jsFromEntries sizeArrays
    (sizes.1 ++
      [Effect.mkdirp (dirname destPath),
       Effect.writeJSON destPath bundleSizes,
       Effect.consoleLog ("Bundle size snapshot written to " ++ destPath)],
      none)

end BundleSizeChecker

namespace BuildScript

/-- `const validBundles = ['modern', 'node', 'stable']`. -/
def validBundles : List String := ["modern", "node", "stable"]

/-- The message of the `TypeError` thrown for an unrecognized bundle:
`Unrecognized bundle '<bundle>'. Did you mean one of "modern", "node",
"stable"?` (the list is `validBundles.join('", "')`). -/
def typeErrorMessage (bundle : String) : String :=
  "Unrecognized bundle \x27" ++ bundle ++ "\x27. Did you mean one of \"" ++
    String.intercalate "\", \"" validBundles ++ "\"?"

/-- Errors thrown by the build script, tagged with their JavaScript class. -/
inductive BuildError
  | typeError (msg : String)
  | error (msg : String)
deriving DecidableEq, Repr

/-- Observable side effects of the build script, in program order. -/
inductive Effect
  | readFile (path : String)
  | globSrc
  | rollupWrite (dir : String)
  | execCommand (cmd : String)
  | consoleLog (msg : String)
deriving DecidableEq, Repr

/-- `const extensions = ['.js', '.ts', '.tsx']`. -/
def extensions : List String := [".js", ".ts", ".tsx"]

/-- The glob `ignore` patterns for tests, specs and type declarations. -/
def ignorePatterns : List String :=
  ["**/*.test.js", "**/*.test.ts", "**/*.test.tsx", "**/*.spec.ts",
   "**/*.spec.tsx", "**/*.d.ts"]

/-- The out-dir fragment chosen per bundle:
`{ node: can ? './node' : './', modern: './modern', stable: can ? './' : './esm' }[bundle]`. -/
def bundleOutSubdir (bundle : String) (canBePackages : Bool) : String :=
  if bundle = "node" then (if canBePackages then "./node" else "./")
  else if bundle = "modern" then "./modern"
  else if canBePackages then "./" else "./esm"

/-- The out-dir fragment chosen per rollup target:
`{ cjs: can ? './node' : './', modern: './modern', esm: can ? './' : './esm' }[target]`. -/
def targetOutSubdir (target : String) (canBePackages : Bool) : String :=
  if target = "cjs" then (if canBePackages then "./node" else "./")
  else if target = "modern" then "./modern"
  else if canBePackages then "./" else "./esm"

/-- `{ node: 'cjs', modern: 'modern', stable: 'esm' }[bundle]`, the default
rollup target list when `--target` is absent. -/
def defaultTarget (bundle : String) : String :=
  if bundle = "node" then "cjs" else if bundle = "modern" then "modern" else "esm"

/-- The babel CLI arguments assembled by `run` (quotes around the joined
extension and ignore lists included). -/
def babelArgs (babelConfigPath srcDir outDir : String) (largeFiles : Bool) :
    List String :=
  ["--config-file", babelConfigPath,
   "--extensions", "\"" ++ String.intercalate "," extensions ++ "\"",
   srcDir,
   "--out-dir", outDir,
   "--ignore", "\"" ++ String.intercalate "\",\"" ignorePatterns ++ "\""] ++
    (if largeFiles then ["--compact false"] else [])

/-- CLI arguments of the build command. -/
structure BuildArgv where
  bundle : String
  largeFiles : Bool
  outDir : String
  rollup : Bool
  target : Option (List String)
  verbose : Bool
deriving DecidableEq, Repr

/-- Environment the build script reads: the current directory, the workspace
root, the `@babel/runtime` entry of `package.json`'s dependencies, the
globbed top-level non-`index` source files, and the captured output of the
babel subprocess (`execStderr = ""` means the command succeeded). -/
structure BuildEnv where
  cwd : String
  workspaceRoot : String
  babelRuntimeDep : Option String
  topLevelNonIndexFiles : List String
  execStderr : String
  execStdout : String
deriving DecidableEq, Repr

/-- The build script's `run(argv)` as an effect trace plus an optional thrown
error.  The bundle-name check is the first statement; every effect
(`fs.readFile`, globbing, rollup writes, the babel subprocess) comes after
it.  The `JSON.stringify(env)` suffix of the verbose log and the process
environment construction are elided; globbed entry files in the rollup
branch are summarized by a second `globSrc`. -/
def run (argv : BuildArgv) (env : BuildEnv) : List Effect × Option BuildError :=
  if (validBundles.contains argv.bundle) = false then
    ([], some (BuildError.typeError (typeErrorMessage argv.bundle)))
  else
    let readPkg := [Effect.readFile (env.cwd ++ "/package.json")]
    match env.babelRuntimeDep with
    | none =>
      (readPkg, some (BuildError.error
        "package.json needs to have a dependency on `@babel/runtime` when building with `@babel/plugin-transform-runtime`."))
    | some _ =>
      let babelConfigPath := env.workspaceRoot ++ "/babel.config.js"
      let srcDir := env.cwd ++ "/src"
      let canBePackages := env.topLevelNonIndexFiles.isEmpty
      let outDir := argv.outDir ++ "/" ++ bundleOutSubdir argv.bundle canBePackages
      let globbed := readPkg ++ [Effect.globSrc]
      if argv.rollup then
        let targets := argv.target.getD [defaultTarget argv.bundle]
        (globbed ++ [Effect.globSrc] ++
          targets.map fun t =>
            Effect.rollupWrite (argv.outDir ++ "/" ++ targetOutSubdir t canBePackages),
          none)
      else
        let command := String.intercalate " "
          ("pnpm babel" :: babelArgs babelConfigPath srcDir outDir argv.largeFiles)
        let verboseLog :=
          if argv.verbose then [Effect.consoleLog ("running \x27" ++ command ++ "\x27")]
          else []
        let executed := globbed ++ verboseLog ++ [Effect.execCommand command]
        if env.execStderr ≠ "" then
          (executed, some (BuildError.error
            ("\x27" ++ command ++ "\x27 failed with \n" ++ env.execStderr)))
        else
          (executed ++ (if argv.verbose then [Effect.consoleLog env.execStdout] else []),
            none)

end BuildScript

namespace Snackbar

/-- Modelled from the spec: the Joy Snackbar implementation
(`packages/mui-joy/src/Snackbar/Snackbar.tsx` and its `useSnackbar` hook) is
not among the sources, only `Snackbar.test.tsx` is; this records one call of
its `onClose(event, reason)` handler.  The auto-hide path calls
`onClose(null, 'timeout')`. -/
structure CloseCall where
  event : Option Unit
  reason : String
deriving DecidableEq, Repr

/-- Modelled from the spec: the `[null, 'timeout']` argument pair of an
auto-hide close. -/
def timeoutCall : CloseCall := { event := none, reason := "timeout" }

/-- Modelled from the spec: the Snackbar's props and timer state.  The
spec's "Snackbar auto-hide/resume timer" keeps a single pending timeout;
`timer = some r` means `onClose(null, 'timeout')` is scheduled to fire after
`r` more milliseconds. -/
structure State where
  isOpen : Bool
  hasOnClose : Bool
  autoHideDuration : Option Nat
  resumeHideDuration : Option Nat
  timer : Option Nat
deriving DecidableEq, Repr

/-- Modelled from the spec: the discrete events the Snackbar timer machine
reacts to — time advancing by `ms` milliseconds, prop updates, and the start
(mouse enter / focus) and end (mouse leave / blur) of a user interaction. -/
inductive Event
  | tick (ms : Nat)
  | setOpen (b : Bool)
  | setAutoHideDuration (d : Option Nat)
  | interactionStart
  | interactionEnd
deriving DecidableEq, Repr

/-- Modelled from the spec: `setAutoHideTimer(d)` — returns unchanged when
no `onClose` handler exists or `d` is null/undefined, otherwise replaces the
pending timeout with one of `d` milliseconds. -/
def setAutoHideTimer (s : State) (d : Option Nat) : State :=
  if s.hasOnClose = false then s
  else
    match d with
    | none => s
    | some ms => { s with timer := some ms }

/-- Modelled from the spec: the auto-hide effect re-running after a prop
change — the cleanup clears any pending timeout, then, when open,
`setAutoHideTimer(autoHideDuration)` arms it again. -/
def applyEffect (s : State) : State :=
  let cleared : State := { s with timer := none }
  if cleared.isOpen then setAutoHideTimer cleared cleared.autoHideDuration else cleared

/-- Modelled from the spec: one step of the Snackbar timer machine, returning
the next state and the `onClose` calls it emits.  A tick fires the pending
timeout once when it elapses within the tick; pausing (interaction start)
clears the timeout; resuming re-arms it with
`resumeHideDuration ?? autoHideDuration / 2` when `autoHideDuration` is set
(the JavaScript `autoHideDuration * 0.5` is integral for the even durations
at stake). -/
def step (s : State) : Event → State × List CloseCall
  | Event.tick ms =>
    match s.timer with
    | none => (s, [])
    | some r =>
      if r ≤ ms then
        ({ s with timer := none }, if s.hasOnClose then [timeoutCall] else [])
      else ({ s with timer := some (r - ms) }, [])
  | Event.setOpen b => (applyEffect { s with isOpen := b }, [])
  | Event.setAutoHideDuration d => (applyEffect { s with autoHideDuration := d }, [])
  | Event.interactionStart => ({ s with timer := none }, [])
  | Event.interactionEnd =>
    match s.autoHideDuration with
    | none => (s, [])
    | some d => (setAutoHideTimer s (some (s.resumeHideDuration.getD (d / 2))), [])

/-- Modelled from the spec: the state right after mounting — the auto-hide
effect runs once with the initial props. -/
def init (isOpen hasOnClose : Bool) (autoHideDuration resumeHideDuration : Option Nat) :
    State :=
  applyEffect
    { isOpen := isOpen, hasOnClose := hasOnClose,
      autoHideDuration := autoHideDuration,
      resumeHideDuration := resumeHideDuration, timer := none }

/-- Modelled from the spec: running a sequence of events, concatenating the
emitted `onClose` calls in order. -/
def runEvents (s : State) : List Event → State × List CloseCall
  | [] => (s, [])
  | e :: es =>
    let first := step s e
    let rest := runEvents first.1 es
    (rest.1, first.2 ++ rest.2)

end Snackbar

namespace Ripple

/-- Modelled from the spec: the Ripple component's exit-timer state
(`Ripple.js` is not among the sources, only `Ripple.test.js` is).  `inProp`
mirrors the `in` prop; `timer = some r` means the scheduled `onExited`
callback fires after `r` more milliseconds. -/
structure State where
  inProp : Bool
  timer : Option Nat
deriving DecidableEq, Repr

/-- Modelled from the spec: the events of the Ripple exit lifecycle — the
`in` prop changing, time advancing, and unmounting (whose effect cleanup
defuses the timer). -/
inductive Event
  | setIn (b : Bool)
  | tick (ms : Nat)
  | unmount
deriving DecidableEq, Repr

/-- Modelled from the spec: the exit effect re-running when `in` changes —
the cleanup clears any scheduled timeout, and when `in` is false a timeout
of `timeout` milliseconds is scheduled to call `onExited`. -/
def applyEffect (timeout : Nat) (s : State) : State :=
  if s.inProp then { s with timer := none } else { s with timer := some timeout }

/-- Modelled from the spec: one step of the Ripple machine, returning the
next state and how many times `onExited` was called. -/
def step (timeout : Nat) (s : State) : Event → State × Nat
  | Event.setIn b =>
    (if b = s.inProp then s else applyEffect timeout { s with inProp := b }, 0)
  | Event.tick ms =>
    match s.timer with
    | none => (s, 0)
    | some r =>
      if r ≤ ms then ({ s with timer := none }, 1)
      else ({ s with timer := some (r - ms) }, 0)
  | Event.unmount => ({ s with timer := none }, 0)

/-- Modelled from the spec: the state right after mounting with the given
`in` prop. -/
def init (inProp : Bool) (timeout : Nat) : State :=
  applyEffect timeout { inProp := inProp, timer := none }

/-- Modelled from the spec: running a sequence of events, counting the
`onExited` calls. -/
def runEvents (timeout : Nat) (s : State) : List Event → State × Nat
  | [] => (s, 0)
  | e :: es =>
    let first := step timeout s e
    let rest := runEvents timeout first.1 es
    (rest.1, first.2 + rest.2)

end Ripple

namespace Snackbar

theorem runEvents_append (s : State) (l₁ l₂ : List Event) :
    runEvents s (l₁ ++ l₂) =
      ((runEvents (runEvents s l₁).1 l₂).1,
       (runEvents s l₁).2 ++ (runEvents (runEvents s l₁).1 l₂).2) := by
  induction l₁ generalizing s with
  | nil => simp [runEvents]
  | cons e es ih => simp [runEvents, ih, List.append_assoc]

theorem runEvents_ticks_none (s : State) (h : s.timer = none) (ticks : List Nat) :
    runEvents s (ticks.map Event.tick) = (s, []) := by
  induction ticks with
  | nil => simp [runEvents]
  | cons t ts ih => simp [runEvents, step, h, ih]

theorem runEvents_ticks_some (s : State) (r : Nat) (hr : 0 < r)
    (ht : s.timer = some r) (hc : s.hasOnClose = true) (ticks : List Nat) :
    runEvents s (ticks.map Event.tick) =
      (if r ≤ ticks.sum then { s with timer := none }
       else { s with timer := some (r - ticks.sum) },
       if r ≤ ticks.sum then [timeoutCall] else []) := by
  induction ticks generalizing s r with
  | nil =>
    obtain ⟨o, c, a, rh, tm⟩ := s
    simp only at ht hc
    subst ht hc
    have hr0 : r ≠ 0 := by omega
    simp [runEvents, hr0]
  | cons t ts ih =>
    obtain ⟨o, c, a, rh, tm⟩ := s
    simp only at ht hc
    subst ht hc
    by_cases hrt : r ≤ t
    · have hsum : r ≤ t + ts.sum := by omega
      simp only [List.map_cons, runEvents, step, if_pos hrt]
      rw [runEvents_ticks_none _ rfl ts]
      simp [hsum]
    · have hpos : 0 < r - t := by omega
      simp only [List.map_cons, runEvents, step, if_neg hrt]
      rw [ih _ (r - t) hpos rfl rfl]
      by_cases hs : r ≤ t + ts.sum
      · have h1 : r - t ≤ ts.sum := by omega
        simp [h1, hs]
      · have h1 : ¬ r - t ≤ ts.sum := by omega
        have h2 : r - t - ts.sum = r - (t + ts.sum) := by omega
        simp [h1, hs, h2]

theorem setAutoHideTimer_none (s : State) : setAutoHideTimer s none = s := by
  simp [setAutoHideTimer]

theorem applyEffect_ahd_none (s : State) (h : s.autoHideDuration = none) :
    applyEffect s = { s with timer := none } := by
  simp [applyEffect, setAutoHideTimer_none, h]

theorem runEvents_no_ahd (s : State) (evs : List Event)
    (h1 : s.autoHideDuration = none) (h2 : s.timer = none)
    (hno : ∀ d, Event.setAutoHideDuration (some d) ∉ evs) :
    (runEvents s evs).2 = [] := by
  induction evs generalizing s with
  | nil => simp [runEvents]
  | cons e es ih =>
    have hno1 : ∀ d, Event.setAutoHideDuration (some d) ∉ es := by
      intro d hd
      exact hno d (List.mem_cons_of_mem _ hd)
    cases e with
    | tick ms =>
      simp only [runEvents, step, h2]
      exact ih s h1 h2 hno1
    | setOpen b =>
      simp only [runEvents, step]
      rw [applyEffect_ahd_none _ (by simpa using h1)]
      exact ih _ (by simpa using h1) rfl hno1
    | setAutoHideDuration d =>
      match d with
      | none =>
        simp only [runEvents, step]
        rw [applyEffect_ahd_none _ (by simp)]
        exact ih _ (by simp) rfl hno1
      | some x =>
        exact absurd (List.mem_cons_self _ _) (hno x)
    | interactionStart =>
      simp only [runEvents, step]
      exact ih _ (by simpa using h1) rfl hno1
    | interactionEnd =>
      simp only [runEvents, step, h1]
      exact ih s h1 h2 hno1

theorem init_some (d : Nat) (rhd : Option Nat) :
    init true true (some d) rhd =
      { isOpen := true, hasOnClose := true, autoHideDuration := some d,
        resumeHideDuration := rhd, timer := some d } := by
  simp [init, applyEffect, setAutoHideTimer]

end Snackbar

namespace Ripple

theorem ripple_runEvents_append (timeout : Nat) (s : State) (l₁ l₂ : List Event) :
    runEvents timeout s (l₁ ++ l₂) =
      ((runEvents timeout (runEvents timeout s l₁).1 l₂).1,
       (runEvents timeout s l₁).2 + (runEvents timeout (runEvents timeout s l₁).1 l₂).2) := by
  induction l₁ generalizing s with
  | nil => simp [runEvents]
  | cons e es ih => simp [runEvents, ih]; omega

theorem ripple_runEvents_ticks_none (timeout : Nat) (s : State) (h : s.timer = none)
    (ticks : List Nat) :
    runEvents timeout s (ticks.map Event.tick) = (s, 0) := by
  induction ticks with
  | nil => simp [runEvents]
  | cons t ts ih => simp [runEvents, step, h, ih]

theorem ripple_runEvents_ticks_some (timeout : Nat) (s : State) (r : Nat) (hr : 0 < r)
    (ht : s.timer = some r) (ticks : List Nat) :
    runEvents timeout s (ticks.map Event.tick) =
      (if r ≤ ticks.sum then { s with timer := none }
       else { s with timer := some (r - ticks.sum) },
       if r ≤ ticks.sum then 1 else 0) := by
  induction ticks generalizing s r with
  | nil =>
    obtain ⟨i, tm⟩ := s
    simp only at ht
    subst ht
    have hr0 : r ≠ 0 := by omega
    simp [runEvents, hr0]
  | cons t ts ih =>
    obtain ⟨i, tm⟩ := s
    simp only at ht
    subst ht
    by_cases hrt : r ≤ t
    · have hsum : r ≤ t + ts.sum := by omega
      simp only [List.map_cons, runEvents, step, if_pos hrt]
      rw [ripple_runEvents_ticks_none _ _ rfl ts]
      simp [hsum]
    · have hpos : 0 < r - t := by omega
      simp only [List.map_cons, runEvents, step, if_neg hrt]
      rw [ih _ (r - t) hpos rfl]
      by_cases hs : r ≤ t + ts.sum
      · have h1 : r - t ≤ ts.sum := by omega
        simp [h1, hs]
      · have h1 : ¬ r - t ≤ ts.sum := by omega
        have h2 : r - t - ts.sum = r - (t + ts.sum) := by omega
        simp [h1, hs, h2]

end Ripple

namespace BundleSizeChecker

theorem jsSetDedup_mem {α : Type} [DecidableEq α] (l : List α) (x : α) :
    x ∈ jsSetDedup l ↔ x ∈ l := by
  induction l with
  | nil => simp [jsSetDedup]
  | cons e rest ih =>
    simp only [jsSetDedup, List.mem_cons, List.mem_filter, ih, decide_eq_true_eq]
    by_cases hx : x = e
    · simp [hx]
    · simp [hx]

theorem jsSetDedup_nodup {α : Type} [DecidableEq α] (l : List α) :
    (jsSetDedup l).Nodup := by
  induction l with
  | nil => simp [jsSetDedup]
  | cons e rest ih =>
    refine List.nodup_cons.mpr ⟨?_, ih.filter _⟩
    intro hmem
    simp [List.mem_filter] at hmem

theorem jsSetDedup_count_eq_one {α : Type} [DecidableEq α] (l : List α) (x : α)
    (h : x ∈ l) : (jsSetDedup l).count x = 1 :=
  List.count_eq_one_of_mem (jsSetDedup_nodup l) ((jsSetDedup_mem l x).mpr h)

theorem jsSetDedup_eq_self_of_nodup {α : Type} [DecidableEq α] (l : List α) :
    l.Nodup → jsSetDedup l = l := by
  induction l with
  | nil => intro _; rfl
  | cons e rest ih =>
    intro h
    obtain ⟨hmem, hrest⟩ := List.nodup_cons.mp h
    rw [jsSetDedup, ih hrest]
    congr 1
    apply List.filter_eq_self.mpr
    intro x hx
    simp only [decide_eq_true_eq]
    intro hxe
    exact hmem (hxe ▸ hx)

end BundleSizeChecker

/-- Claim C1: for the Joy Snackbar mounted open with an `onClose` handler and
a positive numeric `autoHideDuration`, and no intervening interaction, the
emitted `onClose` calls over any sequence of time ticks are exactly one call
with arguments `[null, 'timeout']` once the elapsed time reaches
`autoHideDuration` — no call before that, and no further call afterwards
while it stays open. -/
theorem claim1_snackbar_autoHide_timeout (d : Nat) (hd : 0 < d) (rhd : Option Nat)
    (ticks : List Nat) :
    (Snackbar.runEvents (Snackbar.init true true (some d) rhd)
        (ticks.map Snackbar.Event.tick)).2 =
      if d ≤ ticks.sum then [Snackbar.timeoutCall] else [] := by
  rw [Snackbar.init_some, Snackbar.runEvents_ticks_some _ d hd rfl rfl ticks]

/-- Witness for C1: `autoHideDuration = 2000` and a single 2000 ms tick
produce exactly one `[null, 'timeout']` close. -/
theorem claim1_snackbar_autoHide_timeout_witness :
    (Snackbar.runEvents (Snackbar.init true true (some 2000) none)
        ([2000].map Snackbar.Event.tick)).2 = [Snackbar.timeoutCall] := by
  have h := claim1_snackbar_autoHide_timeout 2000 (by norm_num) none [2000]
  simpa using h

/-- Claim C6: while a user interaction is in progress (mouse over the
snackbar or focus inside it), the auto-hide timer is paused — when the
interaction starts before the deadline, `onClose` is never called afterwards
no matter how much time elapses. -/
theorem claim6_snackbar_interaction_pauses (d : Nat) (rhd : Option Nat)
    (pre post : List Nat) (hpre : pre.sum < d) :
    (Snackbar.runEvents (Snackbar.init true true (some d) rhd)
        (pre.map Snackbar.Event.tick ++
          Snackbar.Event.interactionStart :: post.map Snackbar.Event.tick)).2 = [] := by
  have hd : 0 < d := by omega
  have hnd : ¬ d ≤ pre.sum := by omega
  have hA := Snackbar.runEvents_ticks_some
    { isOpen := true, hasOnClose := true, autoHideDuration := some d,
      resumeHideDuration := rhd, timer := some d } d hd rfl rfl pre
  rw [if_neg hnd, if_neg hnd] at hA
  rw [Snackbar.init_some, Snackbar.runEvents_append, hA]
  simp only [Snackbar.runEvents, Snackbar.step]
  rw [Snackbar.runEvents_ticks_none _ rfl post]
  simp

/-- Witness for C6: `autoHideDuration = 2000`, interaction after 1000 ms,
then 100000 ms more — `onClose` is never called. -/
theorem claim6_snackbar_interaction_pauses_witness :
    (1000 : Nat) < 2000 ∧
    (Snackbar.runEvents (Snackbar.init true true (some 2000) none)
        ([1000].map Snackbar.Event.tick ++
          Snackbar.Event.interactionStart :: [100000].map Snackbar.Event.tick)).2 = [] := by
  refine ⟨by norm_num, ?_⟩
  have h := claim6_snackbar_interaction_pauses 2000 none [1000] [100000] (by norm_num)
  simpa using h

/-- Claim C5: with positive `autoHideDuration` and `resumeHideDuration` and
an interaction starting before the auto-hide deadline, `onClose` is not
called while the interaction lasts nor in the first `resumeHideDuration`
milliseconds after it ends, and once `resumeHideDuration` milliseconds have
elapsed after the interaction ends it is called exactly once with
`[null, 'timeout']`. -/
theorem claim5_snackbar_resumeHideDuration (d r : Nat) (hr : 0 < r)
    (pre mid post : List Nat) (hpre : pre.sum < d) :
    (Snackbar.runEvents (Snackbar.init true true (some d) (some r))
        (pre.map Snackbar.Event.tick ++
          Snackbar.Event.interactionStart ::
            (mid.map Snackbar.Event.tick ++
              Snackbar.Event.interactionEnd :: post.map Snackbar.Event.tick))).2 =
      if r ≤ post.sum then [Snackbar.timeoutCall] else [] := by
  have hd : 0 < d := by omega
  have hnd : ¬ d ≤ pre.sum := by omega
  have hA := Snackbar.runEvents_ticks_some
    { isOpen := true, hasOnClose := true, autoHideDuration := some d,
      resumeHideDuration := some r, timer := some d } d hd rfl rfl pre
  rw [if_neg hnd, if_neg hnd] at hA
  have hC := Snackbar.runEvents_ticks_none
    { isOpen := true, hasOnClose := true, autoHideDuration := some d,
      resumeHideDuration := some r, timer := none } rfl mid
  have hE := Snackbar.runEvents_ticks_some
    { isOpen := true, hasOnClose := true, autoHideDuration := some d,
      resumeHideDuration := some r, timer := some r } r hr rfl rfl post
  rw [Snackbar.init_some, Snackbar.runEvents_append, hA]
  simp only [Snackbar.runEvents, Snackbar.step]
  rw [Snackbar.runEvents_append, hC]
  simp [Snackbar.runEvents, Snackbar.step, Snackbar.setAutoHideTimer, hE]

/-- Witness for C5: `autoHideDuration = 2000`, `resumeHideDuration = 3000`,
interaction from 1000 ms to 2000 ms, then a 3000 ms tick — exactly one
`[null, 'timeout']` close. -/
theorem claim5_snackbar_resumeHideDuration_witness :
    (0 : Nat) < 3000 ∧ (1000 : Nat) < 2000 ∧
    (Snackbar.runEvents (Snackbar.init true true (some 2000) (some 3000))
        ([1000].map Snackbar.Event.tick ++
          Snackbar.Event.interactionStart ::
            ([1000].map Snackbar.Event.tick ++
              Snackbar.Event.interactionEnd :: [3000].map Snackbar.Event.tick))).2 =
      [Snackbar.timeoutCall] := by
  refine ⟨by norm_num, by norm_num, ?_⟩
  have h := claim5_snackbar_resumeHideDuration 2000 3000 (by norm_num)
    [1000] [1000] [3000] (by norm_num)
  simpa using h

/-- Claim C10: with `autoHideDuration` null or undefined, `onClose` is never
called with reason `'timeout'` over any run of ticks and interactions that
never sets a numeric `autoHideDuration`; and resetting `autoHideDuration` to
undefined while the timer is running cancels the pending timeout. -/
theorem claim10_snackbar_null_autoHideDuration (rhd : Option Nat)
    (evs : List Snackbar.Event)
    (hno : ∀ dd, Snackbar.Event.setAutoHideDuration (some dd) ∉ evs) :
    (Snackbar.runEvents (Snackbar.init true true none rhd) evs).2 = [] ∧
    ∀ (d : Nat) (pre post : List Nat), pre.sum < d →
      (Snackbar.runEvents (Snackbar.init true true (some d) rhd)
          (pre.map Snackbar.Event.tick ++
            Snackbar.Event.setAutoHideDuration none ::
              post.map Snackbar.Event.tick)).2 = [] := by
  constructor
  · exact Snackbar.runEvents_no_ahd _ evs rfl rfl hno
  · intro d pre post hpre
    have hd : 0 < d := by omega
    have hnd : ¬ d ≤ pre.sum := by omega
    have hA := Snackbar.runEvents_ticks_some
      { isOpen := true, hasOnClose := true, autoHideDuration := some d,
        resumeHideDuration := rhd, timer := some d } d hd rfl rfl pre
    rw [if_neg hnd, if_neg hnd] at hA
    rw [Snackbar.init_some, Snackbar.runEvents_append, hA]
    simp only [Snackbar.runEvents, Snackbar.step, Snackbar.applyEffect,
      Snackbar.setAutoHideTimer]
    rw [Snackbar.runEvents_ticks_none _ rfl post]
    simp

/-- Witness for C10: no `onClose` with a null `autoHideDuration` across
ticks and interactions, and setting `autoHideDuration` to undefined after
1000 of 2000 ms cancels the close. -/
theorem claim10_snackbar_null_autoHideDuration_witness :
    (Snackbar.runEvents (Snackbar.init true true none none)
        [Snackbar.Event.tick 99999, Snackbar.Event.interactionStart,
         Snackbar.Event.interactionEnd, Snackbar.Event.tick 99999]).2 = [] ∧
    (Snackbar.runEvents (Snackbar.init true true (some 2000) none)
        ([1000].map Snackbar.Event.tick ++
          Snackbar.Event.setAutoHideDuration none ::
            [100000].map Snackbar.Event.tick)).2 = [] := by
  have h := claim10_snackbar_null_autoHideDuration none
    [Snackbar.Event.tick 99999, Snackbar.Event.interactionStart,
     Snackbar.Event.interactionEnd, Snackbar.Event.tick 99999]
    (by intro dd; simp)
  exact ⟨h.1, h.2 2000 [1000] [100000] (by norm_num)⟩

/-- Claim C7: a Ripple mounted with `in = true` and a positive numeric
`timeout` whose `in` prop transitions to false calls `onExited` exactly once,
exactly when `timeout` milliseconds have elapsed since the transition and not
before; and when the Ripple is unmounted before the timeout elapses,
`onExited` is never called. -/
theorem claim7_ripple_exit_timer (t : Nat) (ht : 0 < t) (ticks pre post : List Nat)
    (hpre : pre.sum < t) :
    (Ripple.runEvents t (Ripple.init true t)
        (Ripple.Event.setIn false :: ticks.map Ripple.Event.tick)).2 =
      (if t ≤ ticks.sum then 1 else 0) ∧
    (Ripple.runEvents t (Ripple.init true t)
        (Ripple.Event.setIn false ::
          (pre.map Ripple.Event.tick ++
            Ripple.Event.unmount :: post.map Ripple.Event.tick))).2 = 0 := by
  have hnt : ¬ t ≤ pre.sum := by omega
  have hticks := Ripple.ripple_runEvents_ticks_some t ⟨false, some t⟩ t ht rfl ticks
  have hpreRun := Ripple.ripple_runEvents_ticks_some t ⟨false, some t⟩ t ht rfl pre
  rw [if_neg hnt, if_neg hnt] at hpreRun
  constructor
  · show (Ripple.runEvents t ⟨true, none⟩ _).2 = _
    simp [Ripple.runEvents, Ripple.step, Ripple.applyEffect, hticks]
  · show (Ripple.runEvents t ⟨true, none⟩ _).2 = _
    simp only [Ripple.runEvents, Ripple.step, Ripple.applyEffect]
    rw [Ripple.ripple_runEvents_append]
    simp [hpreRun, Ripple.runEvents, Ripple.step,
      Ripple.ripple_runEvents_ticks_none t ⟨false, none⟩ rfl post]

/-- Witness for C7: `timeout = 550` — ticks of 549 then 1 ms produce exactly
one `onExited` call, and unmounting at 549 ms suppresses it through a further
550 ms tick. -/
theorem claim7_ripple_exit_timer_witness :
    (0 : Nat) < 550 ∧ (549 : Nat) < 550 ∧
    (Ripple.runEvents 550 (Ripple.init true 550)
        (Ripple.Event.setIn false :: [549, 1].map Ripple.Event.tick)).2 = 1 ∧
    (Ripple.runEvents 550 (Ripple.init true 550)
        (Ripple.Event.setIn false ::
          ([549].map Ripple.Event.tick ++
            Ripple.Event.unmount :: [550].map Ripple.Event.tick))).2 = 0 := by
  have h := claim7_ripple_exit_timer 550 (by norm_num) [549, 1] [549] [550] (by norm_num)
  exact ⟨by norm_num, by norm_num, by simpa using h.1, h.2⟩

/-- Claim C8: `getWebpackSizes` deduplicates the configured entrypoints
before dispatching: each distinct entrypoint is submitted to the worker pool
exactly once (in first-occurrence order, with its index and the distinct
count), and the result is the flat concatenation of one size array per
distinct entrypoint. -/
theorem claim8_getWebpackSizes_dedup (rootDir : String)
    (worker : BundleSizeChecker.WorkerArgs → List (String × Nat))
    (env : BundleSizeChecker.WebpackEnv) (entries : List String) (e : String)
    (he : e ∈ entries) :
    (BundleSizeChecker.jsSetDedup entries).count e = 1 ∧
    (BundleSizeChecker.jsSetDedup entries).Nodup ∧
    (∀ x, x ∈ BundleSizeChecker.jsSetDedup entries ↔ x ∈ entries) ∧
    (entries.Nodup → BundleSizeChecker.jsSetDedup entries = entries) ∧
    (BundleSizeChecker.getWebpackSizes rootDir worker env (some entries)).1 =
      BundleSizeChecker.Effect.emptyDir (rootDir ++ "/build") ::
        ((BundleSizeChecker.jsSetDedup entries).mapIdx fun i entry =>
            BundleSizeChecker.WorkerArgs.mk entry env i
              (BundleSizeChecker.jsSetDedup entries).length).map
          BundleSizeChecker.Effect.workerRun ∧
    (BundleSizeChecker.getWebpackSizes rootDir worker env (some entries)).2 =
      Except.ok
        ((((BundleSizeChecker.jsSetDedup entries).mapIdx fun i entry =>
            BundleSizeChecker.WorkerArgs.mk entry env i
              (BundleSizeChecker.jsSetDedup entries).length).map worker).flatten) := by
  have hne : ¬ entries.length = 0 := by
    have := List.ne_nil_of_mem he
    simpa [List.length_eq_zero] using this
  refine ⟨BundleSizeChecker.jsSetDedup_count_eq_one entries e he,
    BundleSizeChecker.jsSetDedup_nodup entries,
    fun x => BundleSizeChecker.jsSetDedup_mem entries x,
    BundleSizeChecker.jsSetDedup_eq_self_of_nodup entries, ?_, ?_⟩ <;>
    simp [BundleSizeChecker.getWebpackSizes, hne]

/-- Witness for C8 on the duplicated entrypoint list `["a", "b", "a"]`. -/
theorem claim8_getWebpackSizes_dedup_witness :
    "a" ∈ (["a", "b", "a"] : List String) ∧
    (BundleSizeChecker.jsSetDedup ["a", "b", "a"]).count "a" = 1 ∧
    BundleSizeChecker.jsSetDedup ["a", "b", "a"] = ["a", "b"] := by
  have h := claim8_getWebpackSizes_dedup "/repo" (fun a => [(a.entry, 1)])
    { analyze := false, accurateBundles := false } ["a", "b", "a"] "a" (by simp)
  exact ⟨by simp, h.1, by rfl⟩

/-- Claim C9: the build script's `run` throws a `TypeError` exactly when the
`bundle` argument is not one of `validBundles`; the check precedes every
side effect, so for an unrecognized bundle the effect trace is empty — no
file read, no glob, no rollup write, no subprocess. -/
theorem claim9_buildRun_typeError_iff (argv : BuildScript.BuildArgv)
    (env : BuildScript.BuildEnv) :
    ((BuildScript.run argv env).2 =
        some (BuildScript.BuildError.typeError
          (BuildScript.typeErrorMessage argv.bundle)) ↔
      BuildScript.validBundles.contains argv.bundle = false) ∧
    (BuildScript.validBundles.contains argv.bundle = false →
      (BuildScript.run argv env).1 = []) ∧
    ∀ m, (BuildScript.run argv env).2 = some (BuildScript.BuildError.typeError m) →
      BuildScript.validBundles.contains argv.bundle = false := by
  by_cases hb : argv.bundle ∈ BuildScript.validBundles
  · have hbc : BuildScript.validBundles.contains argv.bundle = true := by simpa using hb
    obtain ⟨cwd, ws, dep, files, stderr, stdout⟩ := env
    obtain ⟨bundle, lf, od, rollup, target, verbose⟩ := argv
    simp only at hb hbc ⊢
    cases dep <;> cases rollup <;>
      simp [BuildScript.run, hb, hbc] <;> split_ifs <;> simp
  · have hbc : BuildScript.validBundles.contains argv.bundle = false := by simpa using hb
    simp [BuildScript.run, hb, hbc]

/-- Witness for C9: bundle `"foo"` is invalid and yields an empty effect
trace with the `TypeError`. -/
theorem claim9_buildRun_typeError_iff_witness :
    BuildScript.validBundles.contains "foo" = false ∧
    (BuildScript.run
        { bundle := "foo", largeFiles := false, outDir := "./build",
          rollup := false, target := none, verbose := false }
        { cwd := "/repo", workspaceRoot := "/ws", babelRuntimeDep := some "^7.0.0",
          topLevelNonIndexFiles := [], execStderr := "", execStdout := "" }).1 = [] := by
  have h := claim9_buildRun_typeError_iff
    { bundle := "foo", largeFiles := false, outDir := "./build",
      rollup := false, target := none, verbose := false }
    { cwd := "/repo", workspaceRoot := "/ws", babelRuntimeDep := some "^7.0.0",
      topLevelNonIndexFiles := [], execStderr := "", execStdout := "" }
  exact ⟨by rfl, h.2.1 (by rfl)⟩

/-- Claim C2 counterexample: the bundle-size-checker does bound a pool of
parallel workers — on a 4-CPU machine `getWebpackSizes` constructs a Piscina
worker-thread pool with a positive `maxThreads` bound of 4. -/
theorem claim2_counterexample :
    (BundleSizeChecker.getWebpackSizesPool 4).maxThreads = 4 ∧
    0 < (BundleSizeChecker.getWebpackSizesPool 4).maxThreads := by
  constructor <;> decide

/-- Claim C2 amended: the UI components have no threading, but the internal
bundle-size-checker's `getWebpackSizes` creates a Piscina worker-thread pool
whose `maxThreads` bound is `MAX_CONCURRENCY = min(8, cpu count)` — at most
8, at most the CPU count, and positive whenever a CPU exists. -/
theorem claim2_amended_worker_pool_bounded (cpuCount : Nat) :
    (BundleSizeChecker.getWebpackSizesPool cpuCount).maxThreads ≤ 8 ∧
    (BundleSizeChecker.getWebpackSizesPool cpuCount).maxThreads ≤ cpuCount ∧
    (0 < cpuCount → 0 < (BundleSizeChecker.getWebpackSizesPool cpuCount).maxThreads) := by
  refine ⟨Nat.min_le_left _ _, Nat.min_le_right _ _, fun h => ?_⟩
  exact lt_min (by norm_num) h

/-- Witness for the amended C2 at 4 CPUs. -/
theorem claim2_amended_worker_pool_bounded_witness :
    (0 : Nat) < 4 ∧ 0 < (BundleSizeChecker.getWebpackSizesPool 4).maxThreads :=
  ⟨by norm_num, (claim2_amended_worker_pool_bounded 4).2.2 (by norm_num)⟩

/-- Claim C3 counterexample: the build script constructs and throws a
designed error value — a `TypeError` with a specific message — as part of
its contract, here for the unrecognized bundle `'es'`. -/
theorem claim3_counterexample :
    BuildScript.run
        { bundle := "es", largeFiles := false, outDir := "./build",
          rollup := false, target := none, verbose := false }
        { cwd := "/repo", workspaceRoot := "/ws", babelRuntimeDep := some "^7.0.0",
          topLevelNonIndexFiles := [], execStderr := "", execStdout := "" } =
      ([], some (BuildScript.BuildError.typeError
        "Unrecognized bundle \x27es\x27. Did you mean one of \"modern\", \"node\", \"stable\"?")) := by
  rfl

/-- Claim C3 amended: component code surfaces only framework warnings and
test assertions, but the repository's tooling does construct designed
errors: the build script's `run` throws a `TypeError` naming the
unrecognized bundle, and `getWebpackSizes` throws an `Error` with a specific
message when the configuration is absent or has no entrypoints. -/
theorem claim3_amended_designed_errors :
    (∀ (argv : BuildScript.BuildArgv) (env : BuildScript.BuildEnv),
      BuildScript.validBundles.contains argv.bundle = false →
        BuildScript.run argv env =
          ([], some (BuildScript.BuildError.typeError
            (BuildScript.typeErrorMessage argv.bundle)))) ∧
    ∀ (rootDir : String) (worker : BundleSizeChecker.WorkerArgs → List (String × Nat))
      (wenv : BundleSizeChecker.WebpackEnv),
      (BundleSizeChecker.getWebpackSizes rootDir worker wenv none).2 =
        Except.error BundleSizeChecker.configErrorMsg ∧
      (BundleSizeChecker.getWebpackSizes rootDir worker wenv (some [])).2 =
        Except.error BundleSizeChecker.configErrorMsg := by
  constructor
  · intro argv env hb
    have hb2 : argv.bundle ∉ BuildScript.validBundles := by simpa using hb
    simp [BuildScript.run, hb, hb2]
  · intro rootDir worker wenv
    constructor <;> simp [BundleSizeChecker.getWebpackSizes]

/-- Witness for the amended C3 at bundle `"es"`. -/
theorem claim3_amended_designed_errors_witness :
    BuildScript.validBundles.contains "es" = false ∧
    BuildScript.run
        { bundle := "es", largeFiles := false, outDir := "./build",
          rollup := false, target := none, verbose := false }
        { cwd := "/r", workspaceRoot := "/w", babelRuntimeDep := none,
          topLevelNonIndexFiles := [], execStderr := "", execStdout := "" } =
      ([], some (BuildScript.BuildError.typeError (BuildScript.typeErrorMessage "es"))) := by
  exact ⟨by rfl, claim3_amended_designed_errors.1 _ _ (by rfl)⟩

/-- Claim C4 counterexample: the size-snapshot CLI's `run` does write
structured data to a file — its full effect trace at a one-entry
configuration ends by creating the output directory, writing the JSON
snapshot to `size-snapshot.json`, and logging the destination. -/
theorem claim4_counterexample :
    (BundleSizeChecker.run "/repo" (fun a => [(a.entry, 1)])
          (some ["@mui/material"])
          { analyze := false, accurateBundles := false, output := none }).1 =
      [BundleSizeChecker.Effect.emptyDir "/repo/build",
       BundleSizeChecker.Effect.workerRun
         { entry := "@mui/material",
           webpackEnvironment := { analyze := false, accurateBundles := false },
           index := 0, total := 1 },
       BundleSizeChecker.Effect.mkdirp "/repo",
       BundleSizeChecker.Effect.writeJSON "/repo/size-snapshot.json"
         [("@mui/material", 1)],
       BundleSizeChecker.Effect.consoleLog
         "Bundle size snapshot written to /repo/size-snapshot.json"] := by
  rfl

/-- Claim C4 amended: component state is transient and framework-owned, but
the size-snapshot CLI's `run` persists structured data: for every non-empty
entrypoint configuration it completes without error and its effect trace
contains a JSON write of the collected sizes to `snapshotDestPath`. -/
theorem claim4_amended_writes_snapshot (rootDir : String)
    (worker : BundleSizeChecker.WorkerArgs → List (String × Nat))
    (entries : List String) (argv : BundleSizeChecker.Argv)
    (hne : entries ≠ []) :
    (BundleSizeChecker.run rootDir worker (some entries) argv).2 = none ∧
    BundleSizeChecker.Effect.writeJSON
        (BundleSizeChecker.snapshotDestPath rootDir argv.output)
        (BundleSizeChecker.jsFromEntries
          ((((BundleSizeChecker.jsSetDedup entries).mapIdx fun i entry =>
              BundleSizeChecker.WorkerArgs.mk entry
                { analyze := argv.analyze, accurateBundles := argv.accurateBundles }
                i (BundleSizeChecker.jsSetDedup entries).length).map worker).flatten)) ∈
      (BundleSizeChecker.run rootDir worker (some entries) argv).1 := by
  have hlen : ¬ entries.length = 0 := by simpa [List.length_eq_zero] using hne
  constructor <;> simp [BundleSizeChecker.run, BundleSizeChecker.getWebpackSizes, hlen]

/-- Witness for the amended C4 on a one-entry configuration. -/
theorem claim4_amended_writes_snapshot_witness :
    (["@mui/material"] : List String) ≠ [] ∧
    (BundleSizeChecker.run "/repo" (fun a => [(a.entry, 1)])
        (some ["@mui/material"])
        { analyze := false, accurateBundles := false, output := none }).2 = none := by
  refine ⟨by simp, ?_⟩
  exact (claim4_amended_writes_snapshot "/repo" (fun a => [(a.entry, 1)])
    ["@mui/material"] { analyze := false, accurateBundles := false, output := none }
    (by simp)).1
